import Mathlib

/-!
Shallow embedding of the readiness state machine of `aiopg/connection.py`:
a wrapper that bridges the psycopg2 non-blocking poll protocol
(`poll() -> POLL_OK | POLL_READ | POLL_WRITE | POLL_ERROR`, possibly raising
`psycopg2.Warning`/`psycopg2.Error`) to an asyncio event loop.

The driver handle (`self._conn`) is modelled, as the design directs, by a
scripted fake: `script n` is the outcome of the n-th `poll()` call, and the
handle also carries the answer of its `isexecuted()` query and the handle it
would return from a `cursor(...)` call.  The event loop is modelled by two
booleans recording which readiness callbacks are registered for
`self._fileno`, plus a trace of scheduler-visible events.  Python exceptions
propagating out of a method are modelled with an explicit exception channel.
-/

namespace Aiopg

/-- Value of `psycopg2.extensions.POLL_OK`. -/
def POLL_OK : Nat := 0

/-- Value of `psycopg2.extensions.POLL_READ`. -/
def POLL_READ : Nat := 1

/-- Value of `psycopg2.extensions.POLL_WRITE`. -/
def POLL_WRITE : Nat := 2

/-- Value of `psycopg2.extensions.POLL_ERROR`. -/
def POLL_ERROR : Nat := 3

/-- One outcome of a `self._conn.poll()` call: either the call raises a
`psycopg2.Warning` or `psycopg2.Error` (identified by a numeric code), or it
returns a state value (an arbitrary integer, so unknown outcomes are
representable). -/
inductive PollStep where
  | raiseExn (e : Nat)
  | ret (state : Nat)
deriving DecidableEq

/-- The wrapped psycopg2 connection handle, abstracted at its interface as
the design directs: `script n` is the outcome of the n-th `poll()` call and
`idx` counts the polls made so far; `isexecuted` is the answer of the
`isexecuted()` query asserted in `_poll`; `cursorHandle` is the impl object
a `cursor(...)` call on the handle returns. -/
structure Driver where
  script : Nat → PollStep
  idx : Nat
  isexecuted : Bool
  cursorHandle : Nat

/-- Python exceptions that can propagate out of the modelled methods. -/
inductive PyExn where
  /-- the `assert self._waiter is not None, "BAD STATE"` in `_ready` fails -/
  | assertionBadState
  /-- the `assert self._conn.isexecuted()` in `_poll` fails -/
  | assertionNotExecuting
  /-- `self._protocol` read in `_fatal_error` although `Connection.__init__`
  never assigns such an attribute -/
  | attributeErrorProtocol
  /-- `self._conn.poll()` with `self._conn` being `None` -/
  | attributeErrorNonePoll
  /-- `self._conn.cursor(...)` with `self._conn` being `None` -/
  | attributeErrorNoneCursor
  /-- `yield from self._waiter` in `_poll` when `self._waiter` is `None` -/
  | typeErrorNoneNotIterable
  /-- `connect()` rejecting a keyword argument outside `ALLOWED_ARGS` -/
  | typeErrorUnexpectedKwarg
  /-- the `RuntimeError` raised by `_create_waiter` when `self._waiter`
  is already set -/
  | runtimeErrorInProgress
  /-- `ConnectionClosedError` raised by `_create_waiter` -/
  | connectionClosedError
  /-- a `psycopg2.Warning` or `psycopg2.Error` raised by the driver,
  carrying the driver code -/
  | driverExn (e : Nat)
  /-- `asyncio.CancelledError` thrown into a suspended coroutine -/
  | cancelledError
deriving DecidableEq

/-- Scheduler-visible effects, in the order they are performed:
`loop.remove_reader` / `remove_writer` / `add_reader` / `add_writer` on
`self._fileno`, resolution of the waiter future (`set_result(None)` or
`set_exception(e)`), a report through `loop.call_exception_handler`, and
`self._conn.close()`. -/
inductive Event where
  | removeReader
  | removeWriter
  | addReader
  | addWriter
  | setResult
  | setException (e : Nat)
  | reportToSink
  | closeDriver
deriving DecidableEq

/-- The `action` argument of `_ready`: `None`, `'reading'` or `'writing'`
(the only values the source ever passes, so the `else` branch of the action
dispatch, which would call `_fatal_error` on an unknown action, is
unreachable and not modelled). -/
inductive Action where
  | none
  | reading
  | writing
deriving DecidableEq

/-- The `Connection` object state: `conn` is `self._conn` (`none` once
`close()` has nulled it), `waiterSet` records whether `self._waiter`
currently holds a future, `readerArmed` / `writerArmed` record which
readiness callbacks are registered with the event loop for `self._fileno`.
(`self._loop` and the fixed `self._fileno` need no explicit field.) -/
structure Conn where
  conn : Option Driver
  waiterSet : Bool
  readerArmed : Bool
  writerArmed : Bool

/-- The exception argument passed to `_fatal_error` (dead data, see
`fatalError`): `psycopg2.OperationalError` with the offending poll state,
the `UnknownPollError` from the sibling exceptions module, or the
`RuntimeError` of the unknown-action branch. -/
inductive FatalExc where
  | operationalError (state : Nat)
  | unknownPollError
  | runtimeErrorUnknownAction
deriving DecidableEq

/-- Models `Connection._fatal_error`.  The method builds the context dict
for `loop.call_exception_handler`; that dict literal evaluates
`self._protocol`, an attribute `Connection.__init__` never assigns, so an
`AttributeError` is raised before the handler is invoked.  (`self._force_close`,
called on the next line, is likewise undefined on `Connection`.)  Hence no
`reportToSink` event and no `closeDriver` event is ever produced; the passed
exception object `exc` is dead. -/
def fatalError (s : Conn) (_exc : FatalExc) : Conn × List Event × Option PyExn :=
  (s, [], some PyExn.attributeErrorProtocol)

/-- The poll-and-dispatch block of `Connection._ready` (the `try:` statement
onward): calls `self._conn.poll()` and dispatches on the outcome.  A raised
`psycopg2.Warning`/`Error` resolves the waiter with that exception and nulls
`self._waiter`; `POLL_OK` resolves it with `None` and nulls `self._waiter`;
`POLL_READ` / `POLL_WRITE` register the corresponding readiness callback
(re-invoking `_ready` with `'reading'` / `'writing'`); `POLL_ERROR` and any
unknown state invoke `_fatal_error`. -/
def readyPoll (s : Conn) : Conn × List Event × Option PyExn :=
  match s.conn with
  | none => (s, [], some PyExn.attributeErrorNonePoll)
  | some d =>
    let s2 : Conn := { s with conn := some { d with idx := d.idx + 1 } }
    match d.script d.idx with
    | PollStep.raiseExn e =>
      ({ s2 with waiterSet := false }, [Event.setException e], none)
    | PollStep.ret st =>
      if st = POLL_OK then
        ({ s2 with waiterSet := false }, [Event.setResult], none)
      else if st = POLL_READ then
        ({ s2 with readerArmed := true }, [Event.addReader], none)
      else if st = POLL_WRITE then
        ({ s2 with writerArmed := true }, [Event.addWriter], none)
      else if st = POLL_ERROR then
        fatalError s2 (FatalExc.operationalError st)
      else
        fatalError s2 FatalExc.unknownPollError

/-- Models `Connection._ready(action)`: first the
`assert self._waiter is not None, "BAD STATE"`, then the deregistration of
the interest named by `action` (`remove_writer` for `'writing'`,
`remove_reader` for `'reading'`, nothing for `None`), then the poll-and-
dispatch block `readyPoll`. -/
def ready (s : Conn) (a : Action) : Conn × List Event × Option PyExn :=
  if s.waiterSet = false then (s, [], some PyExn.assertionBadState)
  else
    match a with
    | Action.none => readyPoll s
    | Action.writing =>
      let r := readyPoll { s with writerArmed := false }
      (r.1, Event.removeWriter :: r.2.1, r.2.2)
    | Action.reading =>
      let r := readyPoll { s with readerArmed := false }
      (r.1, Event.removeReader :: r.2.1, r.2.2)

/-- Models `Connection._create_waiter(func_name)`: raises
`ConnectionClosedError` when `self._conn` is falsy (i.e. `None`), raises
`RuntimeError` when `self._waiter` is already set, and otherwise stores a
fresh `asyncio.Future` in `self._waiter`.  A raise leaves the object
unchanged, which the first component records. -/
def createWaiter (s : Conn) : Conn × Option PyExn :=
  match s.conn with
  | none => (s, some PyExn.connectionClosedError)
  | some _ =>
    if s.waiterSet then (s, some PyExn.runtimeErrorInProgress)
    else ({ s with waiterSet := true }, none)

/-- Models `Connection.close()`: returns immediately when `self._conn` is
already `None`; otherwise removes the reader and the writer callback for
`self._fileno` (removing an unregistered callback is a safe no-op for the
loop), closes the driver handle and nulls `self._conn`.  It never touches
`self._waiter` and it raises nothing. -/
def close (s : Conn) : Conn × List Event :=
  match s.conn with
  | none => (s, [])
  | some _ =>
    ({ s with readerArmed := false, writerArmed := false, conn := none },
     [Event.removeReader, Event.removeWriter, Event.closeDriver])

/-- Models `Connection.__init__(dsn, loop, waiter, **kwargs)` given the
driver handle `psycopg2.connect(dsn, async=True, **kwargs)` produced: stores
the handle and the waiter, then runs the seeding `self._ready(None)` call. -/
def initConn (d : Driver) : Conn × List Event × Option PyExn :=
  ready { conn := some d, waiterSet := true,
          readerArmed := false, writerArmed := false } Action.none

/-- How the waiter future got resolved in an event trace, if at all:
`some none` for `set_result(None)`, `some (some e)` for
`set_exception(e)`. -/
def resolutionOf : List Event → Option (Option Nat)
  | [] => none
  | Event.setResult :: _ => some none
  | Event.setException e :: _ => some (some e)
  | _ :: rest => resolutionOf rest

/-- How a run of scheduler-driven `_ready` callbacks ended. -/
inductive RunEnd where
  /-- the waiter was resolved with `set_result(None)` -/
  | resolvedOk
  /-- the waiter was resolved with `set_exception(e)` -/
  | resolvedErr (e : Nat)
  /-- a callback raised; the loop logs it and the waiter stays pending -/
  | callbackExn (e : PyExn)
  /-- no interest is armed and the waiter is pending: nothing will ever fire -/
  | noProgress
  /-- fuel exhausted -/
  | outOfFuel
deriving DecidableEq

/-- The scheduler driving the poll loop: as long as the waiter is pending,
the armed readiness callback fires (the socket is assumed to become ready
whenever interest is registered), i.e. `_ready('reading')` or
`_ready('writing')` runs, until the waiter is resolved, a callback raises,
no interest is armed, or the fuel runs out.  Returns the end state, the
concatenated event trace and how the run ended. -/
def eventLoop : Nat → Conn → Conn × List Event × RunEnd
  | 0, s => (s, [], RunEnd.outOfFuel)
  | fuel + 1, s =>
    let act : Option Action :=
      if s.readerArmed then some Action.reading
      else if s.writerArmed then some Action.writing
      else none
    match act with
    | none => (s, [], RunEnd.noProgress)
    | some a =>
      let r := ready s a
      match r.2.2 with
      | some e => (r.1, r.2.1, RunEnd.callbackExn e)
      | none =>
        if r.1.waiterSet then
          let r2 := eventLoop fuel r.1
          (r2.1, r.2.1 ++ r2.2.1, r2.2.2)
        else
          match resolutionOf r.2.1 with
          | some none => (r.1, r.2.1, RunEnd.resolvedOk)
          | some (some e) => (r.1, r.2.1, RunEnd.resolvedErr e)
          | none => (r.1, r.2.1, RunEnd.callbackExn PyExn.assertionBadState)

/-- The `ALLOWED_ARGS` whitelist of `connect()`. -/
def ALLOWED_ARGS : List String :=
  ["host", "hostaddr", "port", "dbname", "user",
   "password", "connect_timeout", "client_encoding",
   "options", "application_name",
   "fallback_application_name", "keepalives",
   "keepalives_idle", "keepalives_interval",
   "keepalives_count", "tty", "sslmode", "requiressl",
   "sslcompression", "sslcert", "sslkey", "sslrootcert",
   "sslcrl", "requirepeer", "krbsrvname", "gsslib",
   "service", "database", "connection_factory", "cursor_factory"]

/-- Outcome of a `connect()` call. -/
inductive ConnectResult where
  /-- returned a `Connection` normally -/
  | ok (c : Conn)
  /-- raised `e` after the `Connection` (and its driver handle) had been
  created; `c` is the state left behind -/
  | failed (c : Conn) (e : PyExn)
  /-- raised before any `Connection` was created (keyword validation) -/
  | rejected (e : PyExn)
  /-- suspended without resolution within the given fuel -/
  | hung (c : Conn)

/-- The exception a `connect()` call raised, if any. -/
def ConnectResult.raised : ConnectResult → Option PyExn
  | ConnectResult.failed _ e => some e
  | ConnectResult.rejected e => some e
  | _ => none

/-- Whether `connect()` returned a `Connection` normally. -/
def ConnectResult.returnedConn : ConnectResult → Bool
  | ConnectResult.ok _ => true
  | _ => false

/-- The connection state a `connect()` call left behind, when one was
created at all. -/
def ConnectResult.connOf : ConnectResult → Option Conn
  | ConnectResult.ok c => some c
  | ConnectResult.failed c _ => some c
  | ConnectResult.rejected _ => none
  | ConnectResult.hung c => some c

/-- Models the module-level coroutine `connect(dsn, *, loop=None, **kwargs)`:
every keyword must be in `ALLOWED_ARGS` or a `TypeError` is raised before
anything is created; then a fresh waiter and the `Connection` are made
(`Connection.__init__` runs the seeding `_ready(None)`), `yield from waiter`
suspends on the **local** `waiter` reference until the scheduler-driven poll
loop resolves it, and the `Connection` is returned.  If `__init__` itself
raised, that exception propagates.  If the waiter was already resolved by
the seeding step, `yield from waiter` returns (or raises the stored driver
exception) immediately. -/
def connect (kwargs : List String) (d : Driver) (fuel : Nat) :
    List Event × ConnectResult :=
  if kwargs.all (fun k => ALLOWED_ARGS.contains k) = false then
    ([], ConnectResult.rejected PyExn.typeErrorUnexpectedKwarg)
  else
    let r := initConn d
    match r.2.2 with
    | some e => (r.2.1, ConnectResult.failed r.1 e)
    | none =>
      if r.1.waiterSet then
        let r2 := eventLoop fuel r.1
        match r2.2.2 with
        | RunEnd.resolvedOk => (r.2.1 ++ r2.2.1, ConnectResult.ok r2.1)
        | RunEnd.resolvedErr e =>
          (r.2.1 ++ r2.2.1, ConnectResult.failed r2.1 (PyExn.driverExn e))
        | _ => (r.2.1 ++ r2.2.1, ConnectResult.hung r2.1)
      else
        match resolutionOf r.2.1 with
        | some none => (r.2.1, ConnectResult.ok r.1)
        | some (some e) =>
          (r.2.1, ConnectResult.failed r.1 (PyExn.driverExn e))
        | none => (r.2.1, ConnectResult.hung r.1)

/-- How a `_poll` coroutine invocation ended for its caller. -/
inductive AwaitEnd where
  /-- returned normally -/
  | returned
  /-- raised `e` to the caller -/
  | raised (e : PyExn)
  /-- suspended without resolution (nothing armed, a callback crashed, or
  fuel ran out) -/
  | stuck
deriving DecidableEq

/-- Models the coroutine `Connection._poll()`:
`assert self._waiter is not None`; `assert self._conn.isexecuted()`;
`self._ready(None)`; then `yield from self._waiter` inside a
`try/finally: self._waiter = None`.  Note the source awaits the **field**
`self._waiter` after the seeding `_ready(None)` call: if that call already
resolved the waiter it also set `self._waiter = None`, and
`yield from None` raises `TypeError` instead of returning the result. -/
def pollAwait (fuel : Nat) (s : Conn) : Conn × List Event × AwaitEnd :=
  if s.waiterSet = false then
    (s, [], AwaitEnd.raised PyExn.assertionBadState)
  else
    match s.conn with
    | none => (s, [], AwaitEnd.raised PyExn.attributeErrorNonePoll)
    | some d =>
      if d.isexecuted = false then
        (s, [], AwaitEnd.raised PyExn.assertionNotExecuting)
      else
        let r := ready s Action.none
        match r.2.2 with
        | some e => (r.1, r.2.1, AwaitEnd.raised e)
        | none =>
          if r.1.waiterSet then
            let r2 := eventLoop fuel r.1
            match r2.2.2 with
            | RunEnd.resolvedOk =>
              ({ r2.1 with waiterSet := false }, r.2.1 ++ r2.2.1,
               AwaitEnd.returned)
            | RunEnd.resolvedErr e =>
              ({ r2.1 with waiterSet := false }, r.2.1 ++ r2.2.1,
               AwaitEnd.raised (PyExn.driverExn e))
            | _ => (r2.1, r.2.1 ++ r2.2.1, AwaitEnd.stuck)
          else
            ({ r.1 with waiterSet := false }, r.2.1,
             AwaitEnd.raised PyExn.typeErrorNoneNotIterable)

/-- Modelled from the spec: the `Cursor` class constructed at the end of
`Connection.cursor` is not among the provided sources (only its
construction site is); per the design it is "a cursor object bound to this
connection and the newly created driver-level cursor". -/
structure Cursor where
  connection : Conn
  impl : Nat

/-- Models the coroutine `Connection.cursor(...)`:
`self._create_waiter('cursor')`, then
`impl = self._conn.cursor(name=..., ...)` on the driver handle, then
`yield from self._poll()`, then `return Cursor(self, impl)`. -/
def cursor (fuel : Nat) (s : Conn) :
    Conn × List Event × Except PyExn Cursor :=
  let cw := createWaiter s
  match cw.2 with
  | some e => (cw.1, [], Except.error e)
  | none =>
    match cw.1.conn with
    | none => (cw.1, [], Except.error PyExn.attributeErrorNoneCursor)
    | some d =>
      let impl := d.cursorHandle
      let r := pollAwait fuel cw.1
      match r.2.2 with
      | AwaitEnd.returned =>
        (r.1, r.2.1, Except.ok { connection := r.1, impl := impl })
      | AwaitEnd.raised e => (r.1, r.2.1, Except.error e)
      | AwaitEnd.stuck => (r.1, r.2.1, Except.error PyExn.cancelledError)

/-- The exception a `cursor()` call raised, if any. -/
def cursorRaised : Except PyExn Cursor → Option PyExn
  | Except.error e => some e
  | Except.ok _ => none

/-- The driver-level cursor handle a successful `cursor()` call wrapped,
if any. -/
def cursorImpl : Except PyExn Cursor → Option Nat
  | Except.error _ => none
  | Except.ok c => some c.impl

/-- Models `Connection._poll()` when the caller's task is cancelled while
suspended at `yield from self._waiter`: the seeding `self._ready(None)` has
run, `CancelledError` is thrown in at the suspension point, the
`finally: self._waiter = None` clears the waiter slot, and the exception
propagates.  Whatever interest the seeding step armed stays armed.
(Meaningful when the seeding step neither raised nor resolved the waiter,
since only then does the coroutine actually suspend.) -/
def pollCancelled (s : Conn) : Conn × List Event × AwaitEnd :=
  let r := ready s Action.none
  ({ r.1 with waiterSet := false }, r.2.1, AwaitEnd.raised PyExn.cancelledError)

/-- Which single readiness interest is armed, for the registration-pairing
argument. -/
inductive Arm where
  | nothing
  | reader
  | writer
deriving DecidableEq

/-- The armed interest recorded in a connection state (meaningful for
well-formed states, where at most one interest is armed). -/
def armOf (s : Conn) : Arm :=
  if s.readerArmed then Arm.reader
  else if s.writerArmed then Arm.writer
  else Arm.nothing

/-- Well-formedness: the reader and the writer callback are never both
registered. -/
def wfConn (s : Conn) : Prop := s.readerArmed = true → s.writerArmed = false

instance (s : Conn) : Decidable (wfConn s) := by unfold wfConn; infer_instance

/-- One step of the registration-pairing checker: an `add` event is legal
only when nothing is armed and arms its interest; a `remove` event of the
armed interest disarms it; a `remove` of an unarmed interest is the loop's
safe no-op; other events do not touch registrations.  `none` marks a
pairing violation (an `add` while something is armed). -/
def stepArm (a : Arm) (e : Event) : Option Arm :=
  match e with
  | Event.addReader => if a = Arm.nothing then some Arm.reader else none
  | Event.addWriter => if a = Arm.nothing then some Arm.writer else none
  | Event.removeReader => if a = Arm.reader then some Arm.nothing else some a
  | Event.removeWriter => if a = Arm.writer then some Arm.nothing else some a
  | _ => some a

/-- Runs the registration-pairing checker over an event trace. -/
def runArm : Arm → List Event → Option Arm
  | a, [] => some a
  | a, e :: rest =>
    match stepArm a e with
    | none => none
    | some a2 => runArm a2 rest

/-- The armed interest a legitimate `_ready(action)` entry presumes:
nothing for `None` (fresh seeding call), the reader for `'reading'`, the
writer for `'writing'`. -/
def expectedArm : Action → Arm
  | Action.none => Arm.nothing
  | Action.reading => Arm.reader
  | Action.writing => Arm.writer

/-- Concrete fixture: a driver scripting needs-write once, then done. -/
def dWrOk : Driver :=
  { script := fun n => if n = 0 then PollStep.ret 2 else PollStep.ret 0,
    idx := 0, isexecuted := true, cursorHandle := 7 }

/-- Concrete fixture: a driver scripting needs-read once, then done. -/
def dRdOk : Driver :=
  { script := fun n => if n = 0 then PollStep.ret 1 else PollStep.ret 0,
    idx := 0, isexecuted := true, cursorHandle := 7 }

/-- Concrete fixture: a driver whose first poll raises driver error 11. -/
def dRaise11 : Driver :=
  { script := fun _ => PollStep.raiseExn 11,
    idx := 0, isexecuted := true, cursorHandle := 7 }

/-- Concrete fixture: a driver whose poll completes immediately. -/
def dDoneNow : Driver :=
  { script := fun _ => PollStep.ret 0,
    idx := 0, isexecuted := true, cursorHandle := 7 }

/-- Concrete fixture: a driver whose poll reports `POLL_ERROR`. -/
def dPollErr : Driver :=
  { script := fun _ => PollStep.ret 3,
    idx := 0, isexecuted := true, cursorHandle := 7 }

/-- Concrete fixture: a driver whose poll returns 42, a value outside the
four known outcomes. -/
def dUnknown42 : Driver :=
  { script := fun _ => PollStep.ret 42,
    idx := 0, isexecuted := true, cursorHandle := 7 }

/-- Concrete fixture: a closed connection. -/
def sClosed : Conn :=
  { conn := none, waiterSet := false, readerArmed := false, writerArmed := false }

/-- Concrete fixture: an open idle connection on `dDoneNow`. -/
def sIdleDone : Conn :=
  { conn := some dDoneNow, waiterSet := false,
    readerArmed := false, writerArmed := false }

/-- Concrete fixture: an open idle connection on `dRdOk`. -/
def sIdleRd : Conn :=
  { conn := some dRdOk, waiterSet := false,
    readerArmed := false, writerArmed := false }

/-- Concrete fixture: an open connection with a pending waiter on `dRdOk`. -/
def sPendRd : Conn :=
  { conn := some dRdOk, waiterSet := true,
    readerArmed := false, writerArmed := false }

/-- Concrete fixture: an open connection with a pending waiter on
`dRaise11`. -/
def sPendRaise : Conn :=
  { conn := some dRaise11, waiterSet := true,
    readerArmed := false, writerArmed := false }

/-- Concrete fixture: an open connection with a pending waiter on
`dPollErr`. -/
def sPendPollErr : Conn :=
  { conn := some dPollErr, waiterSet := true,
    readerArmed := false, writerArmed := false }

/-- Concrete fixture: an open connection with a pending waiter on
`dUnknown42`. -/
def sPendUnknown : Conn :=
  { conn := some dUnknown42, waiterSet := true,
    readerArmed := false, writerArmed := false }

/-- C1: `_create_waiter` fails with `ConnectionClosedError` when the driver
handle is null; fails with the operation-in-progress `RuntimeError` when a
pending waiter already exists, leaving the existing waiter (and the whole
state) untouched; and otherwise stores a fresh pending waiter. -/
theorem c1_create_waiter_guards (s : Conn) :
    (s.conn = none → createWaiter s = (s, some PyExn.connectionClosedError))
    ∧ (s.conn.isSome = true → s.waiterSet = true →
        createWaiter s = (s, some PyExn.runtimeErrorInProgress))
    ∧ (s.conn.isSome = true → s.waiterSet = false →
        createWaiter s = ({ s with waiterSet := true }, none)) := by
  refine ⟨fun h => by simp [createWaiter, h], fun h hw => ?_, fun h hw => ?_⟩
  · cases hc : s.conn with
    | none => simp [hc] at h
    | some d => simp [createWaiter, hc, hw]
  · cases hc : s.conn with
    | none => simp [hc] at h
    | some d => simp [createWaiter, hc, hw]

/-- Witness for C1: the three guard branches of `_create_waiter` at
concrete connection states. -/
theorem c1_create_waiter_guards_witness :
    createWaiter sClosed = (sClosed, some PyExn.connectionClosedError)
    ∧ createWaiter sPendRd = (sPendRd, some PyExn.runtimeErrorInProgress)
    ∧ createWaiter sIdleRd = ({ sIdleRd with waiterSet := true }, none) :=
  ⟨(c1_create_waiter_guards sClosed).1 rfl,
   (c1_create_waiter_guards sPendRd).2.1 rfl rfl,
   (c1_create_waiter_guards sIdleRd).2.2 rfl rfl⟩

/-- C3 (failing input): a poll step in which the driver returns 42, a value
outside the four known outcomes.  The claim expects the fatal path to run
to completion: exactly one report to the error sink and a forced close.
The code instead raises `AttributeError` inside `_fatal_error` (the
`call_exception_handler` context dict reads the never-assigned
`self._protocol`; `self._force_close` is equally undefined), so the sink
receives no report, the driver handle stays open, and the waiter is left
pending. -/
theorem c3_unknown_poll_outcome_crashes :
    (ready sPendUnknown Action.none).2.2 = some PyExn.attributeErrorProtocol
    ∧ (ready sPendUnknown Action.none).2.1 = []
    ∧ (ready sPendUnknown Action.none).1.conn.isSome = true
    ∧ (ready sPendUnknown Action.none).1.waiterSet = true := by
  decide

/-- C5 (failing input): `cursor()` on an open idle connection whose driver
completes immediately (the first poll of the sequence is `done`).
`_create_waiter` and the driver-level cursor call succeed and the seeding
`_ready(None)` resolves the waiter with success and nulls `self._waiter` —
whereupon `_poll` executes `yield from self._waiter`, i.e.
`yield from None`, raising `TypeError` to the caller instead of returning
a Cursor. -/
theorem c5_cursor_immediate_done_type_error :
    cursorRaised (cursor 5 sIdleDone).2.2 = some PyExn.typeErrorNoneNotIterable
    ∧ resolutionOf (cursor 5 sIdleDone).2.1 = some none
    ∧ (cursor 5 sIdleDone).1.waiterSet = false
    ∧ (cursor 5 sIdleDone).1.conn.isSome = true := by
  decide

/-- C7: `close()` is idempotent: from every connection state, a second
`close()` returns the state of the first unchanged and performs no
scheduler or driver call (its event list is empty); it raises nothing by
construction. -/
theorem c7_close_idempotent (s : Conn) :
    close (close s).1 = ((close s).1, ([] : List Event)) := by
  cases hc : s.conn with
  | none => simp [close, hc]
  | some d => simp [close, hc]

/-- C8: on a connection with a still-pending waiter, `close()` deregisters
both read and write interest, closes and nulls the driver handle, and
leaves the pending waiter untouched: its trace resolves nothing. -/
theorem c8_close_preserves_pending (s : Conn) (d : Driver)
    (hc : s.conn = some d) (hw : s.waiterSet = true) :
    (close s).1.waiterSet = true
    ∧ (close s).1.conn = none
    ∧ (close s).1.readerArmed = false
    ∧ (close s).1.writerArmed = false
    ∧ (close s).2 = [Event.removeReader, Event.removeWriter, Event.closeDriver]
    ∧ resolutionOf (close s).2 = none := by
  simp [close, hc, hw, resolutionOf]

/-- Witness for C8: closing `sPendRd`, whose waiter is pending. -/
theorem c8_close_preserves_pending_witness :
    (close sPendRd).1.waiterSet = true
    ∧ (close sPendRd).1.conn = none
    ∧ (close sPendRd).1.readerArmed = false
    ∧ (close sPendRd).1.writerArmed = false
    ∧ (close sPendRd).2
        = [Event.removeReader, Event.removeWriter, Event.closeDriver]
    ∧ resolutionOf (close sPendRd).2 = none :=
  c8_close_preserves_pending sPendRd dRdOk rfl rfl

/-- C2 (counterexample): a poll step in which `poll()` returns the
`POLL_ERROR` outcome.  Contrary to the claim, the pending waiter is not
resolved with the error and not cleared, and the fatal path *is* taken:
`_fatal_error` is invoked (and dies with its AttributeError). -/
theorem c2_poll_error_outcome_goes_fatal :
    (ready sPendPollErr Action.none).1.waiterSet = true
    ∧ resolutionOf (ready sPendPollErr Action.none).2.1 = none
    ∧ (ready sPendPollErr Action.none).2.2
        = some PyExn.attributeErrorProtocol := by
  decide

/-- C2 (amended): when `poll()` raises a driver warning/error, the pending
waiter is resolved with exactly that error and cleared, no exception
escapes the poll step, the driver handle stays open, and a new operation
may immediately begin; but when `poll()` returns the `POLL_ERROR` outcome
the error is not delivered through the waiter: the fatal path is invoked
instead. -/
theorem c2_driver_error_handling (s : Conn) (d : Driver) (a : Action)
    (hc : s.conn = some d) (hw : s.waiterSet = true) :
    (∀ e, d.script d.idx = PollStep.raiseExn e →
      (ready s a).1.waiterSet = false
      ∧ (ready s a).1.conn.isSome = true
      ∧ resolutionOf (ready s a).2.1 = some (some e)
      ∧ (ready s a).2.2 = none
      ∧ (createWaiter (ready s a).1).2 = none)
    ∧ (d.script d.idx = PollStep.ret POLL_ERROR →
      (ready s a).1.waiterSet = true
      ∧ resolutionOf (ready s a).2.1 = none
      ∧ (ready s a).2.2 = some PyExn.attributeErrorProtocol) := by
  constructor
  · intro e he
    cases a <;>
      simp [ready, readyPoll, hc, hw, he, resolutionOf, createWaiter]
  · intro he
    cases a <;>
      simp [ready, readyPoll, hc, hw, he, resolutionOf, fatalError,
            POLL_OK, POLL_READ, POLL_WRITE, POLL_ERROR]

/-- Witness for C2 (amended): the raising driver `dRaise11` and the
`POLL_ERROR` driver `dPollErr`, each under a pending waiter. -/
theorem c2_driver_error_handling_witness :
    ((ready sPendRaise Action.none).1.waiterSet = false
     ∧ (ready sPendRaise Action.none).1.conn.isSome = true
     ∧ resolutionOf (ready sPendRaise Action.none).2.1 = some (some 11)
     ∧ (ready sPendRaise Action.none).2.2 = none
     ∧ (createWaiter (ready sPendRaise Action.none).1).2 = none)
    ∧ ((ready sPendPollErr Action.reading).1.waiterSet = true
     ∧ resolutionOf (ready sPendPollErr Action.reading).2.1 = none
     ∧ (ready sPendPollErr Action.reading).2.2
         = some PyExn.attributeErrorProtocol) :=
  ⟨(c2_driver_error_handling sPendRaise dRaise11 Action.none rfl rfl).1 11 rfl,
   (c2_driver_error_handling sPendPollErr dPollErr Action.reading rfl rfl).2 rfl⟩

/-- C9 (counterexample): an operation whose first poll reported needs-read,
whose caller is then cancelled inside `_poll`.  The registered read
interest indeed stays armed, but contrary to the claim the pending slot
does **not** stay set (the `finally` of `_poll` clears it), and when the
readiness event later fires, the callback resolves nothing: it fails its
BAD STATE assertion. -/
theorem c9_cancelled_wait_counterexample :
    (pollCancelled sPendRd).1.readerArmed = true
    ∧ (pollCancelled sPendRd).1.waiterSet = false
    ∧ (ready (pollCancelled sPendRd).1 Action.reading).2.2
        = some PyExn.assertionBadState
    ∧ resolutionOf (ready (pollCancelled sPendRd).1 Action.reading).2.1
        = none := by
  decide

/-- C9 (amended): when the caller abandons its wait inside
`await_completion` while the driver still needs readiness, the registered
interest stays armed, but the `finally` clause of `_poll` clears the
pending slot as the cancellation propagates; a subsequently fired
readiness callback therefore finds no waiter and fails its BAD STATE
assertion (resolving nothing) instead of resolving the signal. -/
theorem c9_cancelled_wait_leaves_interest_armed (s : Conn) (d : Driver)
    (hc : s.conn = some d) (hw : s.waiterSet = true)
    (_hr : s.readerArmed = false) (_hwr : s.writerArmed = false)
    (hs : d.script d.idx = PollStep.ret POLL_READ) :
    (pollCancelled s).1.readerArmed = true
    ∧ (pollCancelled s).1.waiterSet = false
    ∧ (pollCancelled s).2.2 = AwaitEnd.raised PyExn.cancelledError
    ∧ (∀ a, (ready (pollCancelled s).1 a).2.2 = some PyExn.assertionBadState
        ∧ resolutionOf (ready (pollCancelled s).1 a).2.1 = none) := by
  have hcancel :
      (pollCancelled s).1.waiterSet = false := by
    simp [pollCancelled]
  refine ⟨?_, hcancel, ?_, fun a => ?_⟩
  · simp [pollCancelled, ready, readyPoll, hc, hw, hs,
          POLL_OK, POLL_READ]
  · simp [pollCancelled]
  · constructor <;> simp [ready, hcancel, resolutionOf]

/-- Witness for C9 (amended): cancellation on `sPendRd`, whose driver
reported needs-read first. -/
theorem c9_cancelled_wait_leaves_interest_armed_witness :
    (pollCancelled sPendRd).1.readerArmed = true
    ∧ (pollCancelled sPendRd).1.waiterSet = false
    ∧ (pollCancelled sPendRd).2.2 = AwaitEnd.raised PyExn.cancelledError
    ∧ (ready (pollCancelled sPendRd).1 Action.writing).2.2
        = some PyExn.assertionBadState
    ∧ resolutionOf (ready (pollCancelled sPendRd).1 Action.writing).2.1
        = none := by
  have h := c9_cancelled_wait_leaves_interest_armed sPendRd dRdOk rfl rfl
    rfl rfl (by decide)
  exact ⟨h.1, h.2.1, h.2.2.1, (h.2.2.2 Action.writing).1,
         (h.2.2.2 Action.writing).2⟩

/-- C10: when the driver handle has been created but the very first poll of
the handshake raises a driver error, `connect()` propagates that error to
its caller without returning a Connection, and performs no close and no
deregistration on the failure path: the only scheduler-visible effect is
the waiter resolution, and the already-created driver handle stays open. -/
theorem c10_connect_handshake_failure (kwargs : List String) (d : Driver)
    (e : Nat) (fuel : Nat)
    (hk : kwargs.all (fun k => ALLOWED_ARGS.contains k) = true)
    (hs : d.script d.idx = PollStep.raiseExn e) :
    (connect kwargs d fuel).1 = [Event.setException e]
    ∧ (connect kwargs d fuel).2.raised = some (PyExn.driverExn e)
    ∧ (connect kwargs d fuel).2.returnedConn = false
    ∧ Option.map (fun c => c.conn.isSome) (connect kwargs d fuel).2.connOf
        = some true
    ∧ Event.closeDriver ∉ (connect kwargs d fuel).1
    ∧ Event.removeReader ∉ (connect kwargs d fuel).1
    ∧ Event.removeWriter ∉ (connect kwargs d fuel).1 := by
  unfold connect
  rw [hk]
  simp [initConn, ready, readyPoll, hs, resolutionOf,
        ConnectResult.raised, ConnectResult.returnedConn, ConnectResult.connOf]

/-- Witness for C10: `connect()` with no keyword arguments against
`dRaise11`. -/
theorem c10_connect_handshake_failure_witness :
    (connect [] dRaise11 0).1 = [Event.setException 11]
    ∧ (connect [] dRaise11 0).2.raised = some (PyExn.driverExn 11)
    ∧ (connect [] dRaise11 0).2.returnedConn = false
    ∧ Option.map (fun c => c.conn.isSome) (connect [] dRaise11 0).2.connOf
        = some true
    ∧ Event.closeDriver ∉ (connect [] dRaise11 0).1
    ∧ Event.removeReader ∉ (connect [] dRaise11 0).1
    ∧ Event.removeWriter ∉ (connect [] dRaise11 0).1 :=
  c10_connect_handshake_failure [] dRaise11 11 0 rfl rfl

/-- C4: `connect()` with valid keyword arguments against a driver that
reports needs-write once and then done: write interest is registered
exactly once, and after exactly one write-readiness event the waiter is
resolved with success (the full scheduler trace is add-writer,
remove-writer, set-result) and a usable Connection is returned — open, no
pending waiter, nothing armed, and a new operation may immediately
begin. -/
theorem c4_connect_write_then_done (kwargs : List String) (d : Driver)
    (fuel : Nat)
    (hk : kwargs.all (fun k => ALLOWED_ARGS.contains k) = true)
    (h0 : d.script d.idx = PollStep.ret POLL_WRITE)
    (h1 : d.script (d.idx + 1) = PollStep.ret POLL_OK) :
    (connect kwargs d (fuel + 1)).1
      = [Event.addWriter, Event.removeWriter, Event.setResult]
    ∧ ∃ c, (connect kwargs d (fuel + 1)).2 = ConnectResult.ok c
        ∧ c.conn.isSome = true
        ∧ c.waiterSet = false
        ∧ c.readerArmed = false
        ∧ c.writerArmed = false
        ∧ (createWaiter c).2 = none := by
  unfold connect
  rw [hk]
  simp [initConn, ready, readyPoll, eventLoop, h0, h1, resolutionOf,
        createWaiter, POLL_OK, POLL_READ, POLL_WRITE, POLL_ERROR]

/-- Witness for C4: `connect()` with no keyword arguments against `dWrOk`
and one unit of scheduler fuel. -/
theorem c4_connect_write_then_done_witness :
    (connect [] dWrOk 1).1
      = [Event.addWriter, Event.removeWriter, Event.setResult]
    ∧ ∃ c, (connect [] dWrOk 1).2 = ConnectResult.ok c
        ∧ c.conn.isSome = true
        ∧ c.waiterSet = false
        ∧ c.readerArmed = false
        ∧ c.writerArmed = false
        ∧ (createWaiter c).2 = none :=
  c4_connect_write_then_done [] dWrOk 0 rfl (by decide) (by decide)

/-- Appending event traces composes the registration-pairing checker. -/
theorem runArm_append : ∀ (xs : List Event) (a : Arm) (ys : List Event),
    runArm a (xs ++ ys) = Option.bind (runArm a xs) fun b => runArm b ys
  | [], a, ys => rfl
  | e :: rest, a, ys => by
    cases h : stepArm a e with
    | none => simp [runArm, h]
    | some a2 => simp [runArm, h, runArm_append rest a2 ys]

/-- A state whose recorded armed interest is `nothing` has neither
callback registered. -/
theorem armOf_eq_nothing (s : Conn) (h : armOf s = Arm.nothing) :
    s.readerArmed = false ∧ s.writerArmed = false := by
  unfold armOf at h
  cases hr : s.readerArmed <;> cases hw : s.writerArmed <;>
    simp [hr, hw] at h ⊢

/-- A state whose recorded armed interest is the reader has the reader
callback registered. -/
theorem armOf_eq_reader (s : Conn) (h : armOf s = Arm.reader) :
    s.readerArmed = true := by
  unfold armOf at h
  cases hr : s.readerArmed <;> cases hw : s.writerArmed <;>
    simp [hr, hw] at h ⊢

/-- A state whose recorded armed interest is the writer has only the
writer callback registered. -/
theorem armOf_eq_writer (s : Conn) (h : armOf s = Arm.writer) :
    s.readerArmed = false ∧ s.writerArmed = true := by
  unfold armOf at h
  cases hr : s.readerArmed <;> cases hw : s.writerArmed <;>
    simp [hr, hw] at h ⊢

/-- The poll-and-dispatch block, entered with a pending waiter and no
interest armed: its trace passes the pairing checker, ending at the
interest it arms; the result is well-formed; and if it resolved the waiter
it armed nothing. -/
theorem readyPoll_arm (s : Conn) (hw : s.waiterSet = true)
    (hr : s.readerArmed = false) (hwr : s.writerArmed = false) :
    runArm Arm.nothing (readyPoll s).2.1 = some (armOf (readyPoll s).1)
    ∧ wfConn (readyPoll s).1
    ∧ ((readyPoll s).2.2 = none → (readyPoll s).1.waiterSet = false →
        armOf (readyPoll s).1 = Arm.nothing) := by
  cases hc : s.conn with
  | none => simp [readyPoll, hc, runArm, armOf, wfConn, hr, hwr]
  | some d =>
    cases hs : d.script d.idx with
    | raiseExn e =>
      simp [readyPoll, hc, hs, runArm, stepArm, armOf, wfConn, hr, hwr]
    | ret st =>
      by_cases h0 : st = POLL_OK
      · simp [readyPoll, hc, hs, h0, runArm, stepArm, armOf, wfConn,
              hr, hwr, POLL_OK, POLL_READ, POLL_WRITE, POLL_ERROR]
      · by_cases h1 : st = POLL_READ
        · simp [readyPoll, hc, hs, h0, h1, runArm, stepArm, armOf, wfConn,
                hr, hwr, hw, POLL_OK, POLL_READ, POLL_WRITE, POLL_ERROR]
        · by_cases h2 : st = POLL_WRITE
          · simp [readyPoll, hc, hs, h0, h1, h2, runArm, stepArm, armOf,
                  wfConn, hr, hwr, hw, POLL_OK, POLL_READ, POLL_WRITE,
                  POLL_ERROR]
          · by_cases h3 : st = POLL_ERROR
            · simp [readyPoll, hc, hs, h0, h1, h2, h3, fatalError, runArm,
                    armOf, wfConn, hr, hwr, POLL_OK, POLL_READ, POLL_WRITE,
                    POLL_ERROR]
            · simp only [POLL_OK, POLL_READ, POLL_WRITE, POLL_ERROR]
                at h0 h1 h2 h3
              simp [readyPoll, hc, hs, h0, h1, h2, h3, fatalError, runArm,
                    armOf, wfConn, hr, hwr, POLL_OK, POLL_READ, POLL_WRITE,
                    POLL_ERROR]

/-- `_ready`, entered with exactly the interest its `action` names armed:
its trace passes the pairing checker from that interest to whatever it
leaves armed; the result is well-formed; and if it resolved the waiter it
left nothing armed. -/
theorem ready_arm (s : Conn) (a : Action) (h : armOf s = expectedArm a)
    (hwf : wfConn s) :
    runArm (armOf s) (ready s a).2.1 = some (armOf (ready s a).1)
    ∧ wfConn (ready s a).1
    ∧ ((ready s a).2.2 = none → (ready s a).1.waiterSet = false →
        armOf (ready s a).1 = Arm.nothing) := by
  by_cases hw : s.waiterSet = false
  · simp [ready, hw, runArm, hwf]
  · rw [Bool.not_eq_false] at hw
    cases a with
    | none =>
      have hflags := armOf_eq_nothing s h
      have H := readyPoll_arm s hw hflags.1 hflags.2
      rw [h]
      simpa [ready, hw] using H
    | reading =>
      have hr := armOf_eq_reader s h
      have hwr : s.writerArmed = false := hwf hr
      have H := readyPoll_arm { s with readerArmed := false } hw rfl hwr
      rw [hw] at H
      rw [h]
      simp only [ready, hw, Bool.true_eq_false, if_false]
      refine ⟨?_, H.2.1, H.2.2⟩
      simpa [runArm, stepArm, expectedArm] using H.1
    | writing =>
      have hwr := armOf_eq_writer s h
      have H := readyPoll_arm { s with writerArmed := false } hw hwr.1 rfl
      rw [hw] at H
      rw [h]
      simp only [ready, hw, Bool.true_eq_false, if_false]
      refine ⟨?_, H.2.1, H.2.2⟩
      simpa [runArm, stepArm, expectedArm] using H.1

/-- Every scheduler-driven run of readiness callbacks from a well-formed
state yields a trace the pairing checker accepts, ending at the interest
left armed; and when the run resolves the waiter, nothing remains
armed. -/
theorem eventLoop_arm : ∀ (fuel : Nat) (s : Conn), wfConn s →
    runArm (armOf s) (eventLoop fuel s).2.1
      = some (armOf (eventLoop fuel s).1)
    ∧ wfConn (eventLoop fuel s).1
    ∧ ((eventLoop fuel s).2.2 = RunEnd.resolvedOk
        ∨ (∃ e, (eventLoop fuel s).2.2 = RunEnd.resolvedErr e) →
        armOf (eventLoop fuel s).1 = Arm.nothing)
  | 0, s, hwf => by simp [eventLoop, runArm, hwf]
  | fuel + 1, s, hwf => by
    by_cases hra : s.readerArmed = true
    · have hentry : armOf s = expectedArm Action.reading := by
        simp [armOf, hra, expectedArm]
      have H := ready_arm s Action.reading hentry hwf
      cases hx : (ready s Action.reading).2.2 with
      | some e =>
        simp only [eventLoop, hra, if_true]
        rw [hx]
        exact ⟨H.1, H.2.1, by simp⟩
      | none =>
        by_cases hws : (ready s Action.reading).1.waiterSet = true
        · have IH := eventLoop_arm fuel (ready s Action.reading).1 H.2.1
          simp only [eventLoop, hra, if_true]
          rw [hx]
          simp only [hws, if_true]
          refine ⟨?_, IH.2.1, IH.2.2⟩
          rw [runArm_append, H.1]
          exact IH.1
        · rw [Bool.not_eq_true] at hws
          have harm := H.2.2 hx hws
          simp only [eventLoop, hra, if_true]
          rw [hx]
          simp only [hws, Bool.false_eq_true, if_false]
          cases hres : resolutionOf (ready s Action.reading).2.1 with
          | none => exact ⟨H.1, H.2.1, by simp⟩
          | some r =>
            cases r with
            | none => exact ⟨H.1, H.2.1, fun _ => harm⟩
            | some e => exact ⟨H.1, H.2.1, fun _ => harm⟩
    · by_cases hwa : s.writerArmed = true
      · have hentry : armOf s = expectedArm Action.writing := by
          simp [armOf, hra, hwa, expectedArm]
        have H := ready_arm s Action.writing hentry hwf
        cases hx : (ready s Action.writing).2.2 with
        | some e =>
          simp only [eventLoop, hra, hwa, if_true, if_false,
                     Bool.false_eq_true]
          rw [hx]
          exact ⟨H.1, H.2.1, by simp⟩
        | none =>
          by_cases hws : (ready s Action.writing).1.waiterSet = true
          · have IH := eventLoop_arm fuel (ready s Action.writing).1 H.2.1
            simp only [eventLoop, hra, hwa, if_true, if_false,
                       Bool.false_eq_true]
            rw [hx]
            simp only [hws, if_true]
            refine ⟨?_, IH.2.1, IH.2.2⟩
            rw [runArm_append, H.1]
            exact IH.1
          · rw [Bool.not_eq_true] at hws
            have harm := H.2.2 hx hws
            simp only [eventLoop, hra, hwa, if_true, if_false,
                       Bool.false_eq_true]
            rw [hx]
            simp only [hws, Bool.false_eq_true, if_false]
            cases hres : resolutionOf (ready s Action.writing).2.1 with
            | none => exact ⟨H.1, H.2.1, by simp⟩
            | some r =>
              cases r with
              | none => exact ⟨H.1, H.2.1, fun _ => harm⟩
              | some e => exact ⟨H.1, H.2.1, fun _ => harm⟩
      · simp [eventLoop, hra, hwa, runArm, hwf]

/-- C6: registration pairing.  (1) A poll step entered with previous
interest reading (writing) deregisters exactly that interest first, before
any poll-derived event.  (2) Every scheduler-driven run of readiness
callbacks from a well-formed state produces a trace the pairing checker
accepts — every registration is followed by exactly one matching
deregistration before a different interest is registered — and when the
run resolves the waiter (the operation finishes) no registration remains
armed.  (3) The seeding `_ready(None)` step from a state with nothing
armed also yields a checker-accepted trace.  (4) `close()` deregisters
whatever is armed: its trace is checker-accepted and ends with nothing
armed. -/
theorem c6_registration_pairing :
    (∀ s : Conn, s.waiterSet = true →
      (ready s Action.reading).2.1.head? = some Event.removeReader
      ∧ (ready s Action.writing).2.1.head? = some Event.removeWriter)
    ∧ (∀ (fuel : Nat) (s : Conn), wfConn s →
      runArm (armOf s) (eventLoop fuel s).2.1
        = some (armOf (eventLoop fuel s).1)
      ∧ ((eventLoop fuel s).2.2 = RunEnd.resolvedOk
          ∨ (∃ e, (eventLoop fuel s).2.2 = RunEnd.resolvedErr e) →
          armOf (eventLoop fuel s).1 = Arm.nothing))
    ∧ (∀ s : Conn, s.waiterSet = true → armOf s = Arm.nothing →
      runArm Arm.nothing (ready s Action.none).2.1
        = some (armOf (ready s Action.none).1))
    ∧ (∀ (s : Conn) (d : Driver), s.conn = some d →
      runArm (armOf s) (close s).2 = some Arm.nothing
      ∧ armOf (close s).1 = Arm.nothing) := by
  refine ⟨fun s hw => ?_, fun fuel s hwf => ?_, fun s hw h => ?_,
          fun s d hc => ?_⟩
  · constructor <;> simp [ready, hw]
  · exact ⟨(eventLoop_arm fuel s hwf).1, (eventLoop_arm fuel s hwf).2.2⟩
  · have hwf : wfConn s := by
      intro hr
      exact (armOf_eq_nothing s h).2
    have H := ready_arm s Action.none h hwf
    rw [h] at H
    exact H.1
  · constructor
    · cases hr : s.readerArmed <;> cases hw2 : s.writerArmed <;>
        simp [close, hc, armOf, runArm, stepArm, hr, hw2]
    · simp [close, hc, armOf]

/-- Witness for C6: the pairing facts at the concrete pending state
`sPendRd` (driver: needs-read then done) with three units of fuel. -/
theorem c6_registration_pairing_witness :
    (ready sPendRd Action.reading).2.1.head? = some Event.removeReader
    ∧ runArm (armOf sPendRd) (eventLoop 3 sPendRd).2.1
        = some (armOf (eventLoop 3 sPendRd).1)
    ∧ runArm Arm.nothing (ready sPendRd Action.none).2.1
        = some (armOf (ready sPendRd Action.none).1)
    ∧ runArm (armOf sPendRd) (close sPendRd).2 = some Arm.nothing := by
  have h := c6_registration_pairing
  exact ⟨(h.1 sPendRd rfl).1, (h.2.1 3 sPendRd (by decide)).1,
         h.2.2.1 sPendRd rfl (by decide), (h.2.2.2 sPendRd dRdOk rfl).1⟩

end Aiopg
